import Mathlib

/-!
Verification development for the `convex_flutter` Rust bridge
(`src/rust/src/api/simple.rs`).

The file shallowly embeds the connection manager, the command executor
(`query` / `mutation` / `action`), the subscription loop and the
`SubscriptionHandle` cancellation token, and proves the behavioural
properties stated about them.

External collaborators (the Convex wire client, the serde_json codec, the
Dart callback mechanism) are modelled as parameters: a JSON decoder
`dec : String → Option J`, a JSON→Convex conversion `conv : J → Option V`
and a JSON encoder `enc : V → Except String String`, all supplied by the
environment, mirroring how the Rust code treats them as opaque capabilities.
A Rust `panic!` / `expect` / `unwrap` failure is modelled as an explicit
`panic` outcome, distinct from a returned error value.
-/

/-- The caller-visible error taxonomy of `ClientError` in `simple.rs`. -/
inductive ClientError where
  | internalError (msg : String)
  | convexError (data : String)
  | serverError (msg : String)
  deriving DecidableEq, Repr

/-- Result of a fallible Rust computation that may also panic
(`expect` / `unwrap`). -/
inductive Outcome (α : Type) where
  | ok (a : α)
  | err (e : ClientError)
  | panic (msg : String)
  deriving DecidableEq, Repr

/-- Result of a Rust computation that either returns or panics
(`parse_json_args` has no error path, only `expect` panics). -/
inductive ParseOutcome (α : Type) where
  | ok (a : α)
  | panic (msg : String)
  deriving DecidableEq, Repr

/-- The backend's tagged `FunctionResult`: a value, an unstructured
server error message, or a structured application (Convex) error with a
message and a data payload.  `V` is the opaque Convex `Value` type. -/
inductive FunctionResult (V : Type) where
  | value (v : V)
  | errorMessage (msg : String)
  | convexError (message : String) (data : V)
  deriving DecidableEq, Repr

/-- `handle_direct_function_result` from `simple.rs`:
`Value v` is JSON-encoded (an encoding failure becomes `InternalError`);
`ConvexError e` JSON-encodes `e.data` with `.unwrap()` (an encoding failure
panics) and yields `ClientError::ConvexError`; `ErrorMessage msg` yields
`ClientError::ServerError { msg }`. -/
def handle_direct_function_result {V : Type} (enc : V → Except String String) :
    FunctionResult V → Outcome String
  | .value v =>
    match enc v with
    | .ok s => .ok s
    | .error e => .err (.internalError e)
  | .convexError _ d =>
    match enc d with
    | .ok s => .err (.convexError s)
    | .error e => .panic e
  | .errorMessage msg => .err (.serverError msg)

/-- `parse_json_args` from `simple.rs`: each argument value string is
decoded by serde_json (`dec`); a decode failure hits
`.expect("Invalid JSON data from FFI")`, i.e. panics.  The decoded JSON
value is then converted to a Convex `Value` (`conv`); a conversion failure
hits `.expect("Invalid Convex data from FFI")`.  No error is ever
*returned*: the only failure mode is a panic. -/
def parse_json_args {J V : Type} (dec : String → Option J) (conv : J → Option V) :
    List (String × String) → ParseOutcome (List (String × V))
  | [] => .ok []
  | (k, v) :: rest =>
    match dec v with
    | none => .panic "Invalid JSON data from FFI"
    | some j =>
      match conv j with
      | none => .panic "Invalid Convex data from FFI"
      | some cv =>
        match parse_json_args dec conv rest with
        | .ok tail => .ok ((k, cv) :: tail)
        | .panic m => .panic m

/-- Caller-visible outcome of one command operation, together with whether
the backend verb was actually invoked. -/
structure OpResult where
  result : Outcome String
  backendCalled : Bool
  deriving DecidableEq, Repr

/-- Display message of a tokio `JoinError` for a panicked spawned task,
converted through `anyhow` into `ClientError::InternalError` by the `?`
operators in `mutation` / `action`. -/
def joinPanicMessage : String := "task panicked"

/-- `MobileConvexClient::query`: obtain the connection (a failure becomes
`InternalError` via `From<anyhow::Error>`), then evaluate
`parse_json_args(args)` on the caller's task — a panic there escapes
`query` itself — then invoke the backend verb and map its `FunctionResult`
through `handle_direct_function_result`.  `conn` is the outcome of
`connected_client()` and `fr` the backend's reply. -/
def MobileConvexClient.query {J V : Type} (dec : String → Option J)
    (conv : J → Option V) (enc : V → Except String String)
    (conn : Except String Unit) (args : List (String × String))
    (fr : FunctionResult V) : OpResult :=
  match conn with
  | .error e => ⟨.err (.internalError e), false⟩
  | .ok _ =>
    match parse_json_args dec conv args with
    | .panic m => ⟨.panic m, false⟩
    | .ok _ => ⟨handle_direct_function_result enc fr, true⟩

/-- `MobileConvexClient::internal_mutation`: obtain the connection, then run
`parse_json_args` plus the backend verb inside `rt.spawn`; a panic inside
the spawned task is caught by tokio and surfaces as a `JoinError`, which
`?` converts into an `anyhow` error.  Returns the backend `FunctionResult`
on success. -/
def MobileConvexClient.internal_mutation {J V : Type} (dec : String → Option J)
    (conv : J → Option V) (conn : Except String Unit)
    (args : List (String × String)) (fr : FunctionResult V) :
    Except String (FunctionResult V) × Bool :=
  match conn with
  | .error e => (.error e, false)
  | .ok _ =>
    match parse_json_args dec conv args with
    | .panic _ => (.error joinPanicMessage, false)
    | .ok _ => (.ok fr, true)

/-- `MobileConvexClient::mutation`: `internal_mutation` then
`handle_direct_function_result`; an `anyhow` error becomes
`InternalError`. -/
def MobileConvexClient.mutation {J V : Type} (dec : String → Option J)
    (conv : J → Option V) (enc : V → Except String String)
    (conn : Except String Unit) (args : List (String × String))
    (fr : FunctionResult V) : OpResult :=
  match MobileConvexClient.internal_mutation dec conv conn args fr with
  | (.error e, b) => ⟨.err (.internalError e), b⟩
  | (.ok r, b) => ⟨handle_direct_function_result enc r, b⟩

/-- `MobileConvexClient::internal_action`: structurally identical to
`internal_mutation`, invoking the `action` backend verb instead. -/
def MobileConvexClient.internal_action {J V : Type} (dec : String → Option J)
    (conv : J → Option V) (conn : Except String Unit)
    (args : List (String × String)) (fr : FunctionResult V) :
    Except String (FunctionResult V) × Bool :=
  match conn with
  | .error e => (.error e, false)
  | .ok _ =>
    match parse_json_args dec conv args with
    | .panic _ => (.error joinPanicMessage, false)
    | .ok _ => (.ok fr, true)

/-- `MobileConvexClient::action`: `internal_action` then
`handle_direct_function_result`. -/
def MobileConvexClient.action {J V : Type} (dec : String → Option J)
    (conv : J → Option V) (enc : V → Except String String)
    (conn : Except String Unit) (args : List (String × String))
    (fr : FunctionResult V) : OpResult :=
  match MobileConvexClient.internal_action dec conv conn args fr with
  | (.error e, b) => ⟨.err (.internalError e), b⟩
  | (.ok r, b) => ⟨handle_direct_function_result enc r, b⟩

/-- Setup phase of `MobileConvexClient::internal_subscribe`: obtain the
connection, then call `client.subscribe(name, parse_json_args(args))` —
the argument parse runs on the caller's task, so its panic escapes
`subscribe` itself before the backend subscription is opened. -/
def MobileConvexClient.internal_subscribe_setup {J V : Type}
    (dec : String → Option J) (conv : J → Option V)
    (conn : Except String Unit) (args : List (String × String)) :
    Outcome Unit × Bool :=
  match conn with
  | .error e => (.err (.internalError e), false)
  | .ok _ =>
    match parse_json_args dec conv args with
    | .panic m => (.panic m, false)
    | .ok _ => (.ok (), true)

/-- A delivery to the subscriber: `on_update(value)` or
`on_error(message, optional payload)`. -/
inductive Delivery where
  | onUpdate (value : String)
  | onError (message : String) (payload : Option String)
  deriving DecidableEq, Repr

/-- The dispatch performed on one stream item by the loop body of
`internal_subscribe`: `Value v` → `on_update` with the JSON encoding of
`v` (the `.unwrap()` panics on an encoding failure); `ErrorMessage m` →
`on_error(m, None)`; `ConvexError e` → `on_error(e.message, Some(json of
e.data))` (again `.unwrap()`). -/
def dispatchStreamItem {V : Type} (enc : V → Except String String) :
    FunctionResult V → ParseOutcome Delivery
  | .value v =>
    match enc v with
    | .ok s => .ok (.onUpdate s)
    | .error e => .panic e
  | .errorMessage m => .ok (.onError m none)
  | .convexError msg d =>
    match enc d with
    | .ok s => .ok (.onError msg (some s))
    | .error e => .panic e

/-- What the `select_biased!` in the subscription loop observes on one
iteration: the next stream item is ready (`none` meaning the stream
closed), the cancellation signal is ready, or both are simultaneously
ready. -/
inductive LoopEvent (V : Type) where
  | streamItem (item : Option (FunctionResult V))
  | cancelReady
  | bothReady (item : Option (FunctionResult V))
  deriving DecidableEq, Repr

/-- How the background task of one subscription ended: it broke out of the
loop on the cancellation signal, it panicked (a fault of the task), or the
supplied schedule ran out while it was still looping. -/
inductive LoopExit where
  | canceled
  | fault (msg : String)
  | running
  deriving DecidableEq, Repr

/-- The background loop of `internal_subscribe`, driven by a schedule of
readiness events.  `select_biased!` polls its branches in written order,
so when both futures are ready the stream-item branch wins.  A `None`
stream item hits `.expect("Client dropped prematurely")`.  Returns the
deliveries made to the subscriber, in order, and how the task ended. -/
def runSubscriptionLoop {V : Type} (enc : V → Except String String) :
    List (LoopEvent V) → List Delivery × LoopExit
  | [] => ([], .running)
  | ev :: evs =>
    match ev with
    | .cancelReady => ([], .canceled)
    | .streamItem none => ([], .fault "Client dropped prematurely")
    | .bothReady none => ([], .fault "Client dropped prematurely")
    | .streamItem (some fr) =>
      match dispatchStreamItem enc fr with
      | .panic m => ([], .fault m)
      | .ok d =>
        let rest := runSubscriptionLoop enc evs
        (d :: rest.1, rest.2)
    | .bothReady (some fr) =>
      match dispatchStreamItem enc fr with
      | .panic m => ([], .fault m)
      | .ok d =>
        let rest := runSubscriptionLoop enc evs
        (d :: rest.1, rest.2)

/-- Outcome of one `SubscriptionHandle::cancel()` call: the signal was
sent, the call was a no-op (the sender slot was already empty), or the
call panicked (`send(()).unwrap()` with the receiver already dropped). -/
inductive CancelOutcome where
  | sent
  | noop
  | fault
  deriving DecidableEq, BEq, Repr

/-- `SubscriptionHandle::cancel`: under the `parking_lot::Mutex`, `take()`
the one-shot sender out of the `Option` slot.  `receiverAlive` says
whether the background task still holds the receiver; the state is the
sender slot (`some ()` = sender still present). -/
def SubscriptionHandle.cancel (receiverAlive : Bool) :
    Option Unit → Option Unit × CancelOutcome
  | some _ => (none, if receiverAlive then .sent else .fault)
  | none => (none, .noop)

/-- A sequence of `cancel()` calls on one handle (the `Mutex` serialises
concurrent callers into some such sequence); each call sees the receiver
alive or not per `alive`. -/
def cancelRun : Option Unit → List Bool → List CancelOutcome
  | _, [] => []
  | st, alive :: rest =>
    let step := SubscriptionHandle.cancel alive st
    step.2 :: cancelRun step.1 rest

/-- Modelled from the spec: the lazy once-only connection cell used by
`connected_client()` (the `async_once_cell::OnceCell` holding the
`ConvexClient` — external to this repository).  Per spec section 9 it is
the state machine Uninitialized / Building(waiters) / Ready(handle):
concurrent callers attach to the in-flight build instead of starting a
second one.  `H` is the opaque connection-handle type; waiters are caller
identifiers. -/
inductive CMCell (H : Type) where
  | uninit
  | building (waiters : List Nat)
  | ready (h : H)
  deriving DecidableEq, Repr

/-- State of the connection manager: the cell, the log of results handed
back to callers (caller id paired with the connection handle or the build
failure it observed), and how many builds have completed successfully. -/
structure CMState (H : Type) where
  cell : CMCell H
  returned : List (Nat × Except String H)
  successfulBuilds : Nat

/-- Initial state of a fresh client instance: no connection, no results. -/
def CMState.start (H : Type) : CMState H := ⟨.uninit, [], 0⟩

/-- Modelled from the spec: one atomic transition of the connection
manager.  A caller arriving at a ready cell gets the stored handle; a
caller arriving at an uninitialized cell starts the build and waits; a
caller arriving during a build joins the waiters; a build completion
resolves every waiter of that attempt with the same handle (success,
which makes the cell permanently ready) or the same error (failure, which
returns the cell to uninitialized so a later call retries fresh). -/
inductive CMStep (H : Type) : CMState H → CMState H → Prop where
  | arriveReady (s : CMState H) (i : Nat) (h : H) :
      s.cell = .ready h →
      CMStep H s ⟨s.cell, (i, .ok h) :: s.returned, s.successfulBuilds⟩
  | arriveUninit (s : CMState H) (i : Nat) :
      s.cell = .uninit →
      CMStep H s ⟨.building [i], s.returned, s.successfulBuilds⟩
  | arriveBuilding (s : CMState H) (i : Nat) (ws : List Nat) :
      s.cell = .building ws →
      CMStep H s ⟨.building (i :: ws), s.returned, s.successfulBuilds⟩
  | buildOk (s : CMState H) (h : H) (ws : List Nat) :
      s.cell = .building ws →
      CMStep H s ⟨.ready h, ws.map (fun i => (i, Except.ok h)) ++ s.returned,
        s.successfulBuilds + 1⟩
  | buildErr (s : CMState H) (e : String) (ws : List Nat) :
      s.cell = .building ws →
      CMStep H s ⟨.uninit, ws.map (fun i => (i, Except.error e)) ++ s.returned,
        s.successfulBuilds⟩

/-- States of the connection manager reachable from a fresh client
instance. -/
def CMReachable (H : Type) (s : CMState H) : Prop :=
  Relation.ReflTransGen (CMStep H) (CMState.start H) s

/-- Invariant of the connection manager: while the cell is not ready no
caller has ever received a handle, and no build has succeeded; once the
cell is ready with handle `h`, every handle ever returned is `h`, and
exactly one build has succeeded. -/
def CMInv {H : Type} (s : CMState H) : Prop :=
  (∀ h : H, s.cell = CMCell.ready h →
    (∀ p ∈ s.returned, ∀ h2 : H, p.2 = Except.ok h2 → h2 = h) ∧
      s.successfulBuilds = 1) ∧
  ((∀ h : H, s.cell ≠ CMCell.ready h) →
    (∀ p ∈ s.returned, ∀ h2 : H, p.2 ≠ Except.ok h2) ∧
      s.successfulBuilds = 0)

/-- Discriminator: is this outcome a returned `InternalError`? -/
def Outcome.isInternalErr : Outcome String → Bool
  | .err (.internalError _) => true
  | _ => false

/-- C4: for every one-shot operation, `handle_direct_function_result` maps
the backend Function Result as: `Value v` yields `Ok` with the JSON
encoding of `v`; `ConvexError` (ApplicationError) yields a caller-visible
error carrying exactly the JSON-encoded structured payload; `ErrorMessage
m` (ServerError) yields a caller-visible `ServerError` carrying message
`m` and no payload. -/
theorem handle_direct_function_result_taxonomy {V : Type}
    (enc : V → Except String String) :
    (∀ v : V, ∀ s : String, enc v = Except.ok s →
      handle_direct_function_result enc (FunctionResult.value v) = Outcome.ok s) ∧
    (∀ msg : String, ∀ d : V, ∀ s : String, enc d = Except.ok s →
      handle_direct_function_result enc (FunctionResult.convexError msg d) =
        Outcome.err (ClientError.convexError s)) ∧
    (∀ msg : String,
      handle_direct_function_result enc (FunctionResult.errorMessage msg) =
        Outcome.err (ClientError.serverError msg)) := by
  refine ⟨?_, ?_, ?_⟩
  · intro v s hv
    simp [handle_direct_function_result, hv]
  · intro msg d s hd
    simp [handle_direct_function_result, hd]
  · intro msg
    rfl

/-- Witness for C4 at a concrete encoder and concrete results. -/
theorem handle_direct_function_result_taxonomy_witness :
    handle_direct_function_result (fun v : String => Except.ok v)
      (FunctionResult.value "17") = Outcome.ok "17" ∧
    handle_direct_function_result (fun v : String => Except.ok v)
      (FunctionResult.convexError "boom" "payload") =
      Outcome.err (ClientError.convexError "payload") ∧
    handle_direct_function_result (fun v : String => Except.ok v)
      (FunctionResult.errorMessage "boom") =
      Outcome.err (ClientError.serverError "boom") :=
  ⟨(handle_direct_function_result_taxonomy (fun v : String => Except.ok v)).1
      "17" "17" rfl,
    (handle_direct_function_result_taxonomy (fun v : String => Except.ok v)).2.1
      "boom" "payload" "payload" rfl,
    (handle_direct_function_result_taxonomy (fun v : String => Except.ok v)).2.2
      "boom"⟩

/-- C5: in the subscription background loop, every stream item is
dispatched to the subscriber according to its tag: a `Value` update
invokes `on_update` with the JSON-encoded value; a `ConvexError`
(application-level error) invokes `on_error` with its message and
`some` JSON-encoded payload; an `ErrorMessage` (server-level error)
invokes `on_error` with the message and `none` — in each case the loop
then continues with the rest of the schedule. -/
theorem subscription_loop_dispatch_by_tag {V : Type}
    (enc : V → Except String String) (evs : List (LoopEvent V)) :
    (∀ v : V, ∀ s : String, enc v = Except.ok s →
      runSubscriptionLoop enc
          (LoopEvent.streamItem (some (FunctionResult.value v)) :: evs) =
        (Delivery.onUpdate s :: (runSubscriptionLoop enc evs).1,
          (runSubscriptionLoop enc evs).2)) ∧
    (∀ msg : String, ∀ d : V, ∀ s : String, enc d = Except.ok s →
      runSubscriptionLoop enc
          (LoopEvent.streamItem (some (FunctionResult.convexError msg d)) :: evs) =
        (Delivery.onError msg (some s) :: (runSubscriptionLoop enc evs).1,
          (runSubscriptionLoop enc evs).2)) ∧
    (∀ msg : String,
      runSubscriptionLoop enc
          (LoopEvent.streamItem (some (FunctionResult.errorMessage msg)) :: evs) =
        (Delivery.onError msg none :: (runSubscriptionLoop enc evs).1,
          (runSubscriptionLoop enc evs).2)) := by
  refine ⟨?_, ?_, ?_⟩
  · intro v s hv
    simp [runSubscriptionLoop, dispatchStreamItem, hv]
  · intro msg d s hd
    simp [runSubscriptionLoop, dispatchStreamItem, hd]
  · intro msg
    simp [runSubscriptionLoop, dispatchStreamItem]

/-- Witness for C5 on a concrete schedule: one update, one application
error and one server error, followed by the cancellation signal. -/
theorem subscription_loop_dispatch_by_tag_witness :
    runSubscriptionLoop (fun v : String => Except.ok v)
        (LoopEvent.streamItem (some (FunctionResult.value "1")) ::
          [LoopEvent.cancelReady]) =
      ([Delivery.onUpdate "1"], LoopExit.canceled) ∧
    runSubscriptionLoop (fun v : String => Except.ok v)
        (LoopEvent.streamItem (some (FunctionResult.convexError "oops" "data")) ::
          [LoopEvent.cancelReady]) =
      ([Delivery.onError "oops" (some "data")], LoopExit.canceled) ∧
    runSubscriptionLoop (fun v : String => Except.ok v)
        (LoopEvent.streamItem (some (FunctionResult.errorMessage "boom")) ::
          [LoopEvent.cancelReady]) =
      ([Delivery.onError "boom" none], LoopExit.canceled) :=
  ⟨(subscription_loop_dispatch_by_tag (fun v : String => Except.ok v)
      [LoopEvent.cancelReady]).1 "1" "1" rfl,
    (subscription_loop_dispatch_by_tag (fun v : String => Except.ok v)
      [LoopEvent.cancelReady]).2.1 "oops" "data" "data" rfl,
    (subscription_loop_dispatch_by_tag (fun v : String => Except.ok v)
      [LoopEvent.cancelReady]).2.2 "boom"⟩

/-- C6: the stream yielding no next item while the subscription is active
is fatal to the task: the iteration panics with "Client dropped
prematurely" (via `.expect`), delivers nothing — in particular the
closure is never surfaced to the subscriber as an `on_error` — and the
loop processes none of the remaining schedule. -/
theorem subscription_stream_closure_is_fatal {V : Type}
    (enc : V → Except String String) (evs : List (LoopEvent V)) :
    runSubscriptionLoop enc (LoopEvent.streamItem none :: evs) =
      ([], LoopExit.fault "Client dropped prematurely") ∧
    runSubscriptionLoop enc (LoopEvent.bothReady none :: evs) =
      ([], LoopExit.fault "Client dropped prematurely") :=
  ⟨rfl, rfl⟩

/-- C7: `select_biased!` gives the stream-item branch priority: an
iteration where both the next stream item and the cancellation signal are
ready behaves exactly like one where only the stream item is ready; in
particular a subscription canceled while updates keep arriving delivers
further updates before the cancellation takes effect. -/
theorem subscription_stream_priority_over_cancel {V : Type}
    (enc : V → Except String String) :
    (∀ item : Option (FunctionResult V), ∀ evs : List (LoopEvent V),
      runSubscriptionLoop enc (LoopEvent.bothReady item :: evs) =
        runSubscriptionLoop enc (LoopEvent.streamItem item :: evs)) ∧
    (∀ v : V, ∀ s : String, enc v = Except.ok s →
      runSubscriptionLoop enc
          [LoopEvent.bothReady (some (FunctionResult.value v)),
            LoopEvent.cancelReady] =
        ([Delivery.onUpdate s], LoopExit.canceled)) := by
  constructor
  · intro item evs
    cases item with
    | none => rfl
    | some fr => rfl
  · intro v s hv
    simp [runSubscriptionLoop, dispatchStreamItem, hv]

/-- Witness for C7: with the cancellation signal already ready, a
simultaneously ready update is still delivered first. -/
theorem subscription_stream_priority_over_cancel_witness :
    runSubscriptionLoop (fun v : String => Except.ok v)
        (LoopEvent.bothReady (some (FunctionResult.value "7")) ::
          [LoopEvent.cancelReady]) =
      runSubscriptionLoop (fun v : String => Except.ok v)
        (LoopEvent.streamItem (some (FunctionResult.value "7")) ::
          [LoopEvent.cancelReady]) ∧
    runSubscriptionLoop (fun v : String => Except.ok v)
        [LoopEvent.bothReady (some (FunctionResult.value "7")),
          LoopEvent.cancelReady] =
      ([Delivery.onUpdate "7"], LoopExit.canceled) :=
  ⟨(subscription_stream_priority_over_cancel (fun v : String => Except.ok v)).1
      (some (FunctionResult.value "7")) [LoopEvent.cancelReady],
    (subscription_stream_priority_over_cancel (fun v : String => Except.ok v)).2
      "7" "7" rfl⟩

/-- C8: once the background task observes the cancellation signal it
breaks out of the loop and terminates: whatever stream items the rest of
the schedule would have offered, no further `on_update` or `on_error`
delivery is initiated. -/
theorem subscription_cancel_terminates_loop {V : Type}
    (enc : V → Except String String) (evs : List (LoopEvent V)) :
    runSubscriptionLoop enc (LoopEvent.cancelReady :: evs) =
      ([], LoopExit.canceled) :=
  rfl

/-- Once the sender slot is empty, every further `cancel()` call is a
no-op, whatever the receiver's state. -/
theorem cancelRun_consumed_all (alive : List Bool) :
    (cancelRun none alive).all (fun o => o == CancelOutcome.noop) = true := by
  induction alive with
  | nil => rfl
  | cons b bs ih =>
    simp [cancelRun, SubscriptionHandle.cancel]
    exact ⟨rfl, by simpa using ih⟩

/-- Once the sender slot is empty, no further `cancel()` call ever sends. -/
theorem cancelRun_consumed_count (alive : List Bool) :
    (cancelRun none alive).count CancelOutcome.sent = 0 := by
  induction alive with
  | nil => rfl
  | cons b bs ih => simpa [cancelRun, SubscriptionHandle.cancel] using ih

/-- C2: for every `SubscriptionHandle`, `cancel()` called any number of
times sends the cancellation signal at most once — the first call
consumes the one-shot sender under the lock, and every later call
observes an empty slot and is a no-op (in particular it cannot panic,
whatever the receiver's state).  The `Mutex` serialises concurrent
callers, so an arbitrary call sequence `alive` covers every
interleaving. -/
theorem cancel_signal_sent_at_most_once (alive : List Bool) :
    (cancelRun (some ()) alive).count CancelOutcome.sent ≤ 1 ∧
    ((cancelRun (some ()) alive).tail.all
      (fun o => o == CancelOutcome.noop)) = true := by
  cases alive with
  | nil => simp [cancelRun]
  | cons b bs =>
    constructor
    · have hrest := cancelRun_consumed_count bs
      cases b <;>
        simp [cancelRun, SubscriptionHandle.cancel, List.count_cons, hrest] <;>
        decide
    · have hrest := cancelRun_consumed_all bs
      cases b <;>
        simpa [cancelRun, SubscriptionHandle.cancel] using hrest

/-- C10: `cancel()`'s send of the cancellation signal is asserted to
succeed (`send(()).unwrap()`): if the receiver has already been dropped
when a first `cancel()` finds the sender still present, the call faults;
it completes without fault exactly when the signal is actually delivered
(receiver alive) or the sender was already consumed by an earlier call. -/
theorem cancel_faults_when_receiver_dropped :
    (SubscriptionHandle.cancel false (some ())).2 = CancelOutcome.fault ∧
    (SubscriptionHandle.cancel true (some ())).2 = CancelOutcome.sent ∧
    (∀ alive : Bool,
      (SubscriptionHandle.cancel alive none).2 = CancelOutcome.noop) := by
  refine ⟨rfl, rfl, ?_⟩
  intro alive
  rfl

/-- C9: `query`, `mutation` and `action` all route the backend Function
Result through the single routine `handle_direct_function_result`:
whenever the arguments decode (so the backend verb is actually reached),
the three operations produce identical caller-visible results for any
given Function Result and connection outcome, each equal to the shared
mapping of that result. -/
theorem operations_share_result_mapping {J V : Type} (dec : String → Option J)
    (conv : J → Option V) (enc : V → Except String String)
    (conn : Except String Unit) (args : List (String × String))
    (fr : FunctionResult V) (parsed : List (String × V))
    (h : parse_json_args dec conv args = ParseOutcome.ok parsed) :
    MobileConvexClient.query dec conv enc conn args fr =
      MobileConvexClient.mutation dec conv enc conn args fr ∧
    MobileConvexClient.action dec conv enc conn args fr =
      MobileConvexClient.mutation dec conv enc conn args fr ∧
    MobileConvexClient.query dec conv enc (Except.ok ()) args fr =
      ⟨handle_direct_function_result enc fr, true⟩ := by
  cases conn with
  | error e =>
    refine ⟨rfl, rfl, ?_⟩
    simp [MobileConvexClient.query, h]
  | ok u =>
    refine ⟨?_, ?_, ?_⟩ <;>
      simp [MobileConvexClient.query, MobileConvexClient.mutation,
        MobileConvexClient.action, MobileConvexClient.internal_mutation,
        MobileConvexClient.internal_action, h]

/-- Witness for C9 at a concrete codec, argument map and backend reply. -/
theorem operations_share_result_mapping_witness :
    MobileConvexClient.query (fun _ : String => some ()) (fun _ : Unit => some ())
        (fun _ : Unit => Except.ok "42") (Except.ok ()) [("a", "1")]
        (FunctionResult.value ()) =
      MobileConvexClient.mutation (fun _ : String => some ()) (fun _ : Unit => some ())
        (fun _ : Unit => Except.ok "42") (Except.ok ()) [("a", "1")]
        (FunctionResult.value ()) ∧
    MobileConvexClient.action (fun _ : String => some ()) (fun _ : Unit => some ())
        (fun _ : Unit => Except.ok "42") (Except.ok ()) [("a", "1")]
        (FunctionResult.value ()) =
      MobileConvexClient.mutation (fun _ : String => some ()) (fun _ : Unit => some ())
        (fun _ : Unit => Except.ok "42") (Except.ok ()) [("a", "1")]
        (FunctionResult.value ()) ∧
    MobileConvexClient.query (fun _ : String => some ()) (fun _ : Unit => some ())
        (fun _ : Unit => Except.ok "42") (Except.ok ()) [("a", "1")]
        (FunctionResult.value ()) =
      ⟨handle_direct_function_result (fun _ : Unit => Except.ok "42")
        (FunctionResult.value ()), true⟩ :=
  operations_share_result_mapping (fun _ : String => some ())
    (fun _ : Unit => some ()) (fun _ : Unit => Except.ok "42") (Except.ok ())
    [("a", "1")] (FunctionResult.value ()) [("a", ())] rfl

/-- C3 counterexample: `query` with the argument map holding the single
entry `("a", "\x7b")` — whose value the JSON decoder rejects — does make
no backend call, but it panics ("Invalid JSON data from FFI", the
`.expect` in `parse_json_args`) instead of failing with an
`InternalError`, so the claim as stated is false for `query`. -/
theorem query_invalid_json_panics :
    (MobileConvexClient.query
        (fun s : String => if s = "\x7b" then none else some ())
        (fun _ : Unit => some ()) (fun _ : Unit => Except.ok "null")
        (Except.ok ()) [("a", "\x7b")] (FunctionResult.value ())).result =
      Outcome.panic "Invalid JSON data from FFI" ∧
    Outcome.isInternalErr
      (MobileConvexClient.query
        (fun s : String => if s = "\x7b" then none else some ())
        (fun _ : Unit => some ()) (fun _ : Unit => Except.ok "null")
        (Except.ok ()) [("a", "\x7b")] (FunctionResult.value ())).result =
      false ∧
    (MobileConvexClient.query
        (fun s : String => if s = "\x7b" then none else some ())
        (fun _ : Unit => some ()) (fun _ : Unit => Except.ok "null")
        (Except.ok ()) [("a", "\x7b")] (FunctionResult.value ())).backendCalled =
      false := by
  refine ⟨?_, ?_, ?_⟩ <;> rfl

/-- If some argument entry's value fails to JSON-decode, `parse_json_args`
panics (with one of its two `expect` messages, whichever failure the
iteration hits first). -/
theorem parse_json_args_panics_of_bad_entry {J V : Type}
    (dec : String → Option J) (conv : J → Option V)
    (args : List (String × String)) (k v : String)
    (hmem : (k, v) ∈ args) (hdec : dec v = none) :
    ∃ m : String, parse_json_args dec conv args = ParseOutcome.panic m := by
  induction args with
  | nil => cases hmem
  | cons p rest ih =>
    obtain ⟨k2, v2⟩ := p
    rcases List.mem_cons.mp hmem with heq | hmem2
    · obtain ⟨hk, hv⟩ := Prod.mk.injEq .. ▸ heq
      subst hv
      exact ⟨"Invalid JSON data from FFI", by simp [parse_json_args, hdec]⟩
    · cases hd : dec v2 with
      | none =>
        exact ⟨"Invalid JSON data from FFI", by simp [parse_json_args, hd]⟩
      | some j =>
        cases hc : conv j with
        | none =>
          exact ⟨"Invalid Convex data from FFI",
            by simp [parse_json_args, hd, hc]⟩
        | some cv =>
          obtain ⟨m, hm⟩ := ih hmem2
          exact ⟨m, by simp [parse_json_args, hd, hc, hm]⟩

/-- C3 amended: a call whose argument mapping contains an entry whose
value string is not valid JSON fails closed before any backend call is
made, but not uniformly with an `InternalError`: `query` and `subscribe`
panic on the caller's task (the `expect` in `parse_json_args`), while
`mutation` and `action` panic inside the spawned task, which tokio
converts into a `JoinError` surfaced as an `InternalError`. -/
theorem invalid_json_fails_closed {J V : Type} (dec : String → Option J)
    (conv : J → Option V) (enc : V → Except String String)
    (args : List (String × String)) (fr : FunctionResult V) (k v : String)
    (hmem : (k, v) ∈ args) (hdec : dec v = none) :
    (∃ m : String,
      MobileConvexClient.query dec conv enc (Except.ok ()) args fr =
        ⟨Outcome.panic m, false⟩) ∧
    (∃ m : String,
      MobileConvexClient.internal_subscribe_setup dec conv (Except.ok ()) args =
        (Outcome.panic m, false)) ∧
    MobileConvexClient.mutation dec conv enc (Except.ok ()) args fr =
      ⟨Outcome.err (ClientError.internalError joinPanicMessage), false⟩ ∧
    MobileConvexClient.action dec conv enc (Except.ok ()) args fr =
      ⟨Outcome.err (ClientError.internalError joinPanicMessage), false⟩ := by
  obtain ⟨m, hm⟩ := parse_json_args_panics_of_bad_entry dec conv args k v hmem hdec
  refine ⟨⟨m, ?_⟩, ⟨m, ?_⟩, ?_, ?_⟩ <;>
    simp [MobileConvexClient.query, MobileConvexClient.internal_subscribe_setup,
      MobileConvexClient.mutation, MobileConvexClient.action,
      MobileConvexClient.internal_mutation, MobileConvexClient.internal_action,
      hm]

/-- Witness for the amended C3 at the concrete bad entry `("a", "\x7b")`. -/
theorem invalid_json_fails_closed_witness :
    (∃ m : String,
      MobileConvexClient.query
          (fun s : String => if s = "\x7b" then none else some ())
          (fun _ : Unit => some ()) (fun _ : Unit => Except.ok "null")
          (Except.ok ()) [("a", "\x7b")] (FunctionResult.value ()) =
        ⟨Outcome.panic m, false⟩) ∧
    (∃ m : String,
      MobileConvexClient.internal_subscribe_setup
          (fun s : String => if s = "\x7b" then none else some ())
          (fun _ : Unit => some ()) (Except.ok ()) [("a", "\x7b")] =
        (Outcome.panic m, false)) ∧
    MobileConvexClient.mutation
        (fun s : String => if s = "\x7b" then none else some ())
        (fun _ : Unit => some ()) (fun _ : Unit => Except.ok "null")
        (Except.ok ()) [("a", "\x7b")] (FunctionResult.value ()) =
      ⟨Outcome.err (ClientError.internalError joinPanicMessage), false⟩ ∧
    MobileConvexClient.action
        (fun s : String => if s = "\x7b" then none else some ())
        (fun _ : Unit => some ()) (fun _ : Unit => Except.ok "null")
        (Except.ok ()) [("a", "\x7b")] (FunctionResult.value ()) =
      ⟨Outcome.err (ClientError.internalError joinPanicMessage), false⟩ :=
  invalid_json_fails_closed
    (fun s : String => if s = "\x7b" then none else some ())
    (fun _ : Unit => some ()) (fun _ : Unit => Except.ok "null")
    [("a", "\x7b")] (FunctionResult.value ()) "a" "\x7b"
    (List.mem_singleton.mpr rfl) (by simp)

/-- The connection-manager invariant is preserved by every step. -/
theorem cmInv_step {H : Type} {s t : CMState H} (hs : CMInv s)
    (hstep : CMStep H s t) : CMInv t := by
  obtain ⟨hready, hnot⟩ := hs
  cases hstep with
  | arriveReady i h hc =>
    obtain ⟨hall, hsb⟩ := hready h hc
    constructor
    · intro h2 hc2
      rw [hc] at hc2
      obtain rfl : h = h2 := by injection hc2
      refine ⟨?_, hsb⟩
      intro p hp h3 hp3
      rcases List.mem_cons.mp hp with rfl | hp2
      · injection hp3 with he
        exact he.symm
      · exact hall p hp2 h3 hp3
    · intro hnone
      exact absurd hc (hnone h)
  | arriveUninit i hc =>
    have hnr : ∀ h : H, s.cell ≠ CMCell.ready h := by
      intro h hx
      rw [hc] at hx
      exact CMCell.noConfusion hx
    obtain ⟨hall, hsb⟩ := hnot hnr
    constructor
    · intro h2 hc2
      exact absurd hc2 (by intro hx; exact CMCell.noConfusion hx)
    · intro _
      exact ⟨hall, hsb⟩
  | arriveBuilding i ws hc =>
    have hnr : ∀ h : H, s.cell ≠ CMCell.ready h := by
      intro h hx
      rw [hc] at hx
      exact CMCell.noConfusion hx
    obtain ⟨hall, hsb⟩ := hnot hnr
    constructor
    · intro h2 hc2
      exact absurd hc2 (by intro hx; exact CMCell.noConfusion hx)
    · intro _
      exact ⟨hall, hsb⟩
  | buildOk h ws hc =>
    have hnr : ∀ h2 : H, s.cell ≠ CMCell.ready h2 := by
      intro h2 hx
      rw [hc] at hx
      exact CMCell.noConfusion hx
    obtain ⟨hall, hsb⟩ := hnot hnr
    constructor
    · intro h2 hc2
      obtain rfl : h = h2 := by injection hc2
      refine ⟨?_, by show s.successfulBuilds + 1 = 1; omega⟩
      intro p hp h3 hp3
      rcases List.mem_append.mp hp with hp1 | hp2
      · obtain ⟨i, _, rfl⟩ := List.mem_map.mp hp1
        injection hp3 with he
        exact he.symm
      · exact absurd hp3 (hall p hp2 h3)
    · intro hnone
      exact absurd rfl (hnone h)
  | buildErr e ws hc =>
    have hnr : ∀ h : H, s.cell ≠ CMCell.ready h := by
      intro h hx
      rw [hc] at hx
      exact CMCell.noConfusion hx
    obtain ⟨hall, hsb⟩ := hnot hnr
    constructor
    · intro h2 hc2
      exact absurd hc2 (by intro hx; exact CMCell.noConfusion hx)
    · intro _
      refine ⟨?_, hsb⟩
      intro p hp h3 hp3
      rcases List.mem_append.mp hp with hp1 | hp2
      · obtain ⟨i, _, rfl⟩ := List.mem_map.mp hp1
        exact Except.noConfusion hp3
      · exact hall p hp2 h3 hp3

/-- Every reachable state of the connection manager satisfies the
invariant. -/
theorem cmInv_reachable {H : Type} {s : CMState H} (hr : CMReachable H s) :
    CMInv s := by
  induction hr with
  | refl =>
    constructor
    · intro h hc
      exact absurd hc (by intro hx; exact CMCell.noConfusion hx)
    · intro _
      refine ⟨?_, rfl⟩
      intro p hp
      exact absurd hp (List.not_mem_nil p)
  | tail _ hstep ih => exact cmInv_step ih hstep

/-- C1: in every reachable state of the connection manager, any two
connection handles ever handed to callers are the same handle (the
backend connection is built at most once, all racing first-callers
included), at most one build has completed successfully, a failed build
leaves the cell uninitialized with a fresh build enabled for the next
caller (no permanent poisoning), and a failing in-flight build resolves
every waiter of that attempt with the same failure. -/
theorem connected_client_build_at_most_once (H : Type) (s : CMState H)
    (hr : CMReachable H s) :
    (∀ p ∈ s.returned, ∀ q ∈ s.returned, ∀ h1 h2 : H,
      p.2 = Except.ok h1 → q.2 = Except.ok h2 → h1 = h2) ∧
    s.successfulBuilds ≤ 1 ∧
    (s.cell = CMCell.uninit → ∀ i : Nat,
      CMStep H s ⟨CMCell.building [i], s.returned, s.successfulBuilds⟩) ∧
    (∀ ws : List Nat, ∀ e : String, s.cell = CMCell.building ws →
      CMStep H s ⟨CMCell.uninit,
        ws.map (fun i => (i, Except.error e)) ++ s.returned,
        s.successfulBuilds⟩) := by
  obtain ⟨hready, hnot⟩ := cmInv_reachable hr
  refine ⟨?_, ?_, ?_, ?_⟩
  · intro p hp q hq h1 h2 hp2 hq2
    cases hcell : s.cell with
    | uninit =>
      have hnr : ∀ h : H, s.cell ≠ CMCell.ready h := by
        intro h hx
        rw [hcell] at hx
        exact CMCell.noConfusion hx
      exact absurd hp2 ((hnot hnr).1 p hp h1)
    | building ws =>
      have hnr : ∀ h : H, s.cell ≠ CMCell.ready h := by
        intro h hx
        rw [hcell] at hx
        exact CMCell.noConfusion hx
      exact absurd hp2 ((hnot hnr).1 p hp h1)
    | ready h =>
      obtain ⟨hall, _⟩ := hready h hcell
      rw [hall p hp h1 hp2, hall q hq h2 hq2]
  · cases hcell : s.cell with
    | uninit =>
      have hnr : ∀ h : H, s.cell ≠ CMCell.ready h := by
        intro h hx
        rw [hcell] at hx
        exact CMCell.noConfusion hx
      have hsb := (hnot hnr).2
      omega
    | building ws =>
      have hnr : ∀ h : H, s.cell ≠ CMCell.ready h := by
        intro h hx
        rw [hcell] at hx
        exact CMCell.noConfusion hx
      have hsb := (hnot hnr).2
      omega
    | ready h =>
      have hsb := (hready h hcell).2
      omega
  · intro hc i
    exact CMStep.arriveUninit s i hc
  · intro ws e hc
    exact CMStep.buildErr s e ws hc

/-- Witness for C1 at the initial state of a fresh client instance, whose
reachability is immediate. -/
theorem connected_client_build_at_most_once_witness :
    (CMState.start Nat).successfulBuilds ≤ 1 ∧
    CMStep Nat (CMState.start Nat)
      ⟨CMCell.building [0], (CMState.start Nat).returned,
        (CMState.start Nat).successfulBuilds⟩ :=
  ⟨(connected_client_build_at_most_once Nat (CMState.start Nat)
      Relation.ReflTransGen.refl).2.1,
    (connected_client_build_at_most_once Nat (CMState.start Nat)
      Relation.ReflTransGen.refl).2.2.1 rfl 0⟩
